import Mathlib

/-!
Verification development for the Zero2Prod newsletter service.

Shallow embedding of the core operations: the subscription workflow
(src/routes/subscriptions.rs), the confirmation workflow
(src/routes/subscriptions_confirm.rs), the newsletter fan-out and its
credential validation (src/routes/newsletters.rs, src/authentication.rs),
and the storage helpers (src/database_helper.rs).

Storage is modelled as an explicit record of row lists; each fallible
external step (database statement, transaction commit, email send) is
driven by an oracle record so that every success and failure path of the
source is representable. HTTP outcomes are modelled by their numeric
status codes (200, 400, 401, 500).
-/

namespace Zero2Prod

/-- Subscriber status. The source stores the string literal
"pending confirmation" on insert and "confirmed" on update; only these two
literals occur, so the status is modelled as a two-constructor type. -/
inductive SubscriberStatus where
  | pending_confirmation
  | confirmed
deriving DecidableEq, Repr

/-- Row of the subscriptions table (id, email, name, status). The
subscribed_at timestamp is carried by the source insert but read by no
operation in scope, so it is omitted. Uuid values are modelled as Nat. -/
structure SubscriberRow where
  id : Nat
  email : String
  name : String
  status : SubscriberStatus
deriving DecidableEq, Repr

/-- Row of the subscription_tokens table. -/
structure TokenRow where
  subscription_token : String
  subscriber_id : Nat
deriving DecidableEq, Repr

/-- Row of the users table (user_id, username, password hash). -/
structure UserRow where
  user_id : Nat
  username : String
  password : String
deriving DecidableEq, Repr

/-- The durable store: subscriptions, subscription_tokens and users. -/
structure Store where
  subscriptions : List SubscriberRow
  subscription_tokens : List TokenRow
  users : List UserRow
deriving DecidableEq, Repr

/-- Modelled from the spec: SubscriberName::parse is referenced from
src/domain/subscriber.rs but its defining file is absent from src. The
spec describes a valid name as non-empty, of bounded length and free of a
disallowed character set. -/
def valid_name (s : String) : Bool :=
  !(s.toList.all (fun c => c.isWhitespace)) && decide (s.toList.length ≤ 256) &&
    !(s.toList.any (fun c =>
      ['/', '(', ')', '"', '<', '>', '\\', Char.ofNat 123, Char.ofNat 125].contains c))

/-- Modelled from the spec: SubscriberEmail::parse is referenced from
src/domain/subscriber.rs but its defining file is absent from src. The
spec describes a valid email as an RFC-shaped address; the model requires
exactly one at-sign with a non-empty local part and a non-empty domain
part, which classifies every example the spec gives (rejecting an empty
string, "not-an-email" and an address missing the at-sign). -/
def valid_email (s : String) : Bool :=
  let cs := s.toList
  let lpart := cs.takeWhile (fun c => c != '@')
  match cs.dropWhile (fun c => c != '@') with
  | '@' :: dpart => !lpart.isEmpty && !dpart.isEmpty && !(dpart.contains '@')
  | _ => false

/-- Embedding of database_helper::get_subscriber_id_from_email: SELECT id
FROM subscriptions WHERE email equals the argument, fetch_optional. -/
def get_subscriber_id_from_email (store : Store) (email : String) : Option Nat :=
  (store.subscriptions.find? (fun r => r.email == email)).map (fun r => r.id)

/-- Embedding of database_helper::get_subscription_token_from_id: SELECT
subscription_token FROM subscription_tokens WHERE subscriber_id equals the
argument, fetch_optional. -/
def get_subscription_token_from_id (store : Store) (sid : Nat) : Option String :=
  (store.subscription_tokens.find? (fun r => r.subscriber_id == sid)).map
    (fun r => r.subscription_token)

/-- Embedding of database_helper::insert_subscriber: INSERT INTO
subscriptions a new row with status "pending confirmation". The random
Uuid::new_v4 is supplied as the fresh_id argument. Returns the new id and
the updated store. -/
def insert_subscriber (store : Store) (fresh_id : Nat) (name email : String) :
    Nat × Store :=
  (fresh_id,
    { store with
      subscriptions :=
        store.subscriptions ++
          [{ id := fresh_id, email := email, name := name,
             status := SubscriberStatus.pending_confirmation }] })

/-- Embedding of database_helper::store_token: INSERT INTO
subscription_tokens (subscription_token, subscriber_id). -/
def store_token (store : Store) (sid : Nat) (token : String) : Store :=
  { store with
    subscription_tokens :=
      store.subscription_tokens ++ [{ subscription_token := token, subscriber_id := sid }] }

/-- Embedding of the confirm_subscriber query in
src/routes/subscriptions_confirm.rs: UPDATE subscriptions SET status equal
to confirmed WHERE id equals the argument. Every matching row is updated;
zero matching rows is not an error. -/
def confirm_subscriber (store : Store) (sid : Nat) : Store :=
  { store with
    subscriptions :=
      store.subscriptions.map (fun r =>
        if r.id == sid then { r with status := SubscriberStatus.confirmed } else r) }

/-- Embedding of the get_subscriber_id_from_token query in
src/routes/subscriptions_confirm.rs: SELECT subscriber_id FROM
subscription_tokens WHERE subscription_token equals the argument,
fetch_optional. -/
def get_subscriber_id_from_token (store : Store) (token : String) : Option Nat :=
  (store.subscription_tokens.find? (fun r => r.subscription_token == token)).map
    (fun r => r.subscriber_id)

/-- Embedding of database_helper::get_stored_credentials: SELECT user_id,
password FROM users WHERE username equals the argument, fetch_optional. -/
def get_stored_credentials (store : Store) (username : String) :
    Option (Nat × String) :=
  (store.users.find? (fun r => r.username == username)).map
    (fun r => (r.user_id, r.password))

/-- Embedding of database_helper::get_confirmed_subscribers: SELECT email
FROM subscriptions WHERE status equals confirmed, then each row is mapped
through SubscriberEmail::parse, giving Ok on a valid stored email and Err
on an invalid one. -/
def get_confirmed_subscribers (store : Store) : List (Except String String) :=
  (store.subscriptions.filter (fun r => r.status == SubscriberStatus.confirmed)).map
    (fun r => if valid_email r.email then Except.ok r.email else Except.error r.email)

/-- Alphabet of the rand Alphanumeric distribution sampled by
generate_subscription_token. -/
def alphanumericChars : List Char :=
  "ABCDEFGHIJKLMNOPQRSTUVWXYZabcdefghijklmnopqrstuvwxyz0123456789".toList

/-- Embedding of generate_subscription_token in
src/routes/subscriptions.rs: 25 samples of the Alphanumeric distribution.
The random source is supplied as a stream of indices into the alphabet. -/
def generate_subscription_token (rng : Nat → Fin 62) : String :=
  String.mk ((List.range 25).map (fun i => alphanumericChars.getD (rng i).val 'A'))

/-- Outbound email as handed to EmailClient::send_email: recipient,
subject, text body, html body. -/
structure Email where
  recipient : String
  subject : String
  text_body : String
  html_body : String
deriving DecidableEq, Repr

/-- Confirmation link built in send_confirmation_email: the base url
joined with the confirm path and the subscription_token query. -/
def confirmation_link (base_url token : String) : String :=
  base_url ++ "/subscriptions/confirm?subscription_token=" ++ token

/-- Embedding of send_confirmation_email: subject "Welcome", plain and
html bodies containing the confirmation link. -/
def confirmation_email (recipient base_url token : String) : Email :=
  { recipient := recipient
    subject := "Welcome"
    text_body :=
      "Welcome to our newsletter!\nVisit " ++ confirmation_link base_url token ++
        " to confirm subscription"
    html_body :=
      "Welcome to our newsletter!<br />Click <a href=\"" ++
        confirmation_link base_url token ++ "\"> here </a> to confirm your subscription." }

/-- Oracle driving the fallible external steps of subscribe: success of
each database statement, of the transaction commit and of the email send,
plus the random sources (fresh Uuid and token randomness). -/
structure SubscribeOracle where
  lookup_id_ok : Bool
  lookup_token_ok : Bool
  begin_ok : Bool
  insert_subscriber_ok : Bool
  store_token_ok : Bool
  commit_ok : Bool
  send_email_ok : Bool
  fresh_id : Nat
  rng : Nat → Fin 62

/-- Result of an HTTP handler: status code, store after the call, emails
successfully handed to the gateway during the call. -/
structure HttpResult where
  status : Nat
  store : Store
  emails_sent : List Email
deriving DecidableEq, Repr

/-- Embedding of subscribe in src/routes/subscriptions.rs. Parse failure
returns 400 with no storage access. An existing subscriber for the email
takes the resend path: missing token gives 500, otherwise the stored token
is mailed again and nothing is written. A new email takes the transaction
path: begin, insert_subscriber, store_token, commit; a failure of any of
these rolls the transaction back (the store is unchanged) and returns 500.
After a successful commit the confirmation email is sent; a send failure
returns 500 but the committed rows persist. -/
def subscribe (store : Store) (o : SubscribeOracle) (name email base_url : String) :
    HttpResult :=
  if !(valid_name name && valid_email email) then ⟨400, store, []⟩
  else if !o.lookup_id_ok then ⟨500, store, []⟩
  else
    match get_subscriber_id_from_email store email with
    | some sid =>
      if !o.lookup_token_ok then ⟨500, store, []⟩
      else
        match get_subscription_token_from_id store sid with
        | none => ⟨500, store, []⟩
        | some token =>
          if o.send_email_ok then ⟨200, store, [confirmation_email email base_url token]⟩
          else ⟨500, store, []⟩
    | none =>
      if !o.begin_ok then ⟨500, store, []⟩
      else if !o.insert_subscriber_ok then ⟨500, store, []⟩
      else
        let res := insert_subscriber store o.fresh_id name email
        let token := generate_subscription_token o.rng
        if !o.store_token_ok then ⟨500, store, []⟩
        else
          let draft := store_token res.2 res.1 token
          if !o.commit_ok then ⟨500, store, []⟩
          else if o.send_email_ok then
            ⟨200, draft, [confirmation_email email base_url token]⟩
          else ⟨500, draft, []⟩

/-- Iterated resubmission: runs subscribe n times with the same inputs and
oracle, threading the store and collecting the emails of every call. -/
def subscribe_iter (o : SubscribeOracle) (name email base_url : String) :
    Nat → Store → Store × List Email
  | 0, store => (store, [])
  | n + 1, store =>
    let r := subscribe store o name email base_url
    let rest := subscribe_iter o name email base_url n r.store
    (rest.1, r.emails_sent ++ rest.2)

/-- Oracle driving the fallible storage steps of confirm: success of the
token lookup query and of the status update query. -/
structure ConfirmOracle where
  lookup_ok : Bool
  update_ok : Bool

/-- Result of confirm: status code, store after the call, and the number
of storage statements executed during the call. -/
structure ConfirmResult where
  status : Nat
  store : Store
  storage_accesses : Nat
deriving DecidableEq, Repr

/-- Embedding of confirm in src/routes/subscriptions_confirm.rs. The token
lookup is executed first for every incoming token (there is no shape
validation in the source); a lookup error gives 500, an absent token gives
401, and a found subscriber id leads to the unconditional status update,
giving 500 on an update error and 200 otherwise. -/
def confirm (store : Store) (o : ConfirmOracle) (token : String) : ConfirmResult :=
  if !o.lookup_ok then ⟨500, store, 1⟩
  else
    match get_subscriber_id_from_token store token with
    | none => ⟨401, store, 1⟩
    | some sid =>
      if !o.update_ok then ⟨500, store, 2⟩
      else ⟨200, confirm_subscriber store sid, 2⟩

/-- Iterated confirmation: runs confirm n times with the same token and
oracle, threading the store and collecting the status of every call. -/
def confirm_iter (o : ConfirmOracle) (token : String) :
    Nat → Store → Store × List Nat
  | 0, store => (store, [])
  | n + 1, store =>
    let r := confirm store o token
    let rest := confirm_iter o token n r.store
    (rest.1, r.status :: rest.2)

/-- Error type of the newsletter publish path
(src/routes/newsletters.rs::PublishError): UnexpectedError maps to 500,
AuthError maps to 401 with the Basic challenge header. -/
inductive PublishError where
  | UnexpectedError
  | AuthError
deriving DecidableEq, Repr

/-- Error type of the login authentication module
(src/authentication.rs::AuthError): UnexpectedError is the internal error,
InvalidCredentials the authentication failure. -/
inductive AuthError where
  | UnexpectedError
  | InvalidCredentials
deriving DecidableEq, Repr

/-- Model of argon2 PasswordHash::new, the PHC string format parser used
by both copies of validate_password_hash: a PHC string starts with a
dollar sign followed by a non-empty algorithm identifier segment. -/
def phc_parse_ok (s : String) : Bool :=
  match s.toList with
  | '$' :: rest => !(rest.takeWhile (fun c => c != '$')).isEmpty
  | _ => false

/-- Embedding of validate_password_hash in src/routes/newsletters.rs, the
copy called by publish_newsletter: a stored hash that fails PHC parsing is
mapped to PublishError::AuthError, and a failed verification is also
mapped to PublishError::AuthError. The argon2 verification itself is an
external collaborator supplied as the verify argument (candidate password,
stored hash). -/
def newsletters_validate_password_hash (verify : String → String → Bool)
    (expected_password password_candidate : String) : Except PublishError Unit :=
  if !phc_parse_ok expected_password then Except.error PublishError.AuthError
  else if verify password_candidate expected_password then Except.ok ()
  else Except.error PublishError.AuthError

/-- Embedding of validate_password_hash in src/authentication.rs, the copy
called by the login route: a stored hash that fails PHC parsing is mapped
to AuthError::UnexpectedError, while a failed verification is mapped to
AuthError::InvalidCredentials. -/
def authentication_validate_password_hash (verify : String → String → Bool)
    (expected_password password_candidate : String) : Except AuthError Unit :=
  if !phc_parse_ok expected_password then Except.error AuthError.UnexpectedError
  else if verify password_candidate expected_password then Except.ok ()
  else Except.error AuthError.InvalidCredentials

/-- Oracle driving the fallible steps of publish_newsletter other than the
per-recipient sends: success of the credential lookup query, of scheduling
the blocking verification task, and of the confirmed-subscriber query. -/
structure PublishOracle where
  cred_lookup_ok : Bool
  spawn_ok : Bool
  get_confirmed_ok : Bool

/-- Embedding of the validate_credentials copy in
src/routes/newsletters.rs: a lookup error is UnexpectedError, an unknown
username is AuthError, a spawn failure is UnexpectedError, and otherwise
the result of newsletters_validate_password_hash decides; on success the
stored user id is returned. -/
def newsletters_validate_credentials (store : Store) (verify : String → String → Bool)
    (o : PublishOracle) (username password : String) : Except PublishError Nat :=
  if !o.cred_lookup_ok then Except.error PublishError.UnexpectedError
  else
    match get_stored_credentials store username with
    | none => Except.error PublishError.AuthError
    | some (uid, expected) =>
      if !o.spawn_ok then Except.error PublishError.UnexpectedError
      else
        match newsletters_validate_password_hash verify expected password with
        | Except.error e => Except.error e
        | Except.ok _ => Except.ok uid

/-- Newsletter email for one recipient, as handed to
EmailClient::send_email inside the publish loop. -/
def newsletter_email (recipient title text html : String) : Email :=
  { recipient := recipient, subject := title, text_body := text, html_body := html }

/-- Embedding of the sequential fan-out loop of publish_newsletter. Each
Ok entry is sent through the gateway (send_ok gives the gateway outcome
per recipient); the first send failure aborts the loop with the failure
flag; each Err entry is skipped with a warning and no send attempt.
Returns whether the loop completed and the emails successfully sent. -/
def newsletter_send_loop (send_ok : String → Bool) (title text html : String) :
    List (Except String String) → Bool × List Email
  | [] => (true, [])
  | Except.error _ :: rest => newsletter_send_loop send_ok title text html rest
  | Except.ok e :: rest =>
    if send_ok e then
      let r := newsletter_send_loop send_ok title text html rest
      (r.1, newsletter_email e title text html :: r.2)
    else (false, [])

/-- Embedding of publish_newsletter in src/routes/newsletters.rs. The
creds argument is the result of basic_authentication (none when the header
is missing or malformed, which maps to AuthError and 401). After
credential validation, the confirmed subscribers are loaded and the
fan-out loop runs; a send failure surfaces 500, otherwise 200. The store
is never written by this handler, so only status and sent emails are
returned. -/
def publish_newsletter (store : Store) (verify : String → String → Bool)
    (o : PublishOracle) (send_ok : String → Bool)
    (creds : Option (String × String)) (title text html : String) :
    Nat × List Email :=
  match creds with
  | none => (401, [])
  | some (u, p) =>
    match newsletters_validate_credentials store verify o u p with
    | Except.error PublishError.AuthError => (401, [])
    | Except.error PublishError.UnexpectedError => (500, [])
    | Except.ok _ =>
      if !o.get_confirmed_ok then (500, [])
      else
        let r := newsletter_send_loop send_ok title text html (get_confirmed_subscribers store)
        if r.1 then (200, r.2) else (500, r.2)

/-- Emails of the confirmed subscribers whose stored address re-parses as
valid, in store order: the recipients the publish loop attempts. -/
def confirmed_valid_emails (store : Store) : List String :=
  ((store.subscriptions.filter (fun r => r.status == SubscriberStatus.confirmed)).map
    (fun r => r.email)).filter valid_email

/-! Helper lemmas shared by the claim theorems. -/

theorem list_map_self {α : Type} (l : List α) (f : α → α) (h : ∀ x ∈ l, f x = x) :
    l.map f = l := by
  induction l with
  | nil => rfl
  | cons a t ih =>
    simp only [List.map_cons, h a (List.mem_cons_self a t)]
    rw [ih (fun x hx => h x (List.mem_cons_of_mem a hx))]

theorem get_subscriber_id_from_token_eq_none (store : Store) (t : String)
    (h : ∀ r ∈ store.subscription_tokens, r.subscription_token ≠ t) :
    get_subscriber_id_from_token store t = none := by
  have hf : store.subscription_tokens.find? (fun r => r.subscription_token == t) = none :=
    List.find?_eq_none.mpr (fun r hr => by simpa using h r hr)
  simp [get_subscriber_id_from_token, hf]

theorem confirm_subscriber_of_id_absent (store : Store) (sid : Nat)
    (h : ∀ r ∈ store.subscriptions, r.id ≠ sid) :
    confirm_subscriber store sid = store := by
  unfold confirm_subscriber
  rw [list_map_self _ _ (fun r hr => by simp [h r hr])]

theorem confirm_subscriber_of_already_confirmed (store : Store) (sid : Nat)
    (h : ∀ r ∈ store.subscriptions, r.id = sid → r.status = SubscriberStatus.confirmed) :
    confirm_subscriber store sid = store := by
  unfold confirm_subscriber
  rw [list_map_self _ _ ?_]
  intro r hr
  by_cases hid : r.id = sid
  · have hst := h r hr hid
    cases r
    simp_all
  · simp [hid]

/-! Claim theorems. -/

/-- C1: the claim states that, in the newsletter publish path, a stored
password hash that fails PHC parsing yields an internal-error outcome and
is never reported as an authentication failure. The code contradicts this:
the validate_password_hash copy in src/routes/newsletters.rs, the one
called by publish_newsletter, maps the PHC parse failure to
PublishError::AuthError, so publish answers 401 (the authentication
failure outcome with the Basic challenge) instead of 500. The
validate_password_hash copy in src/authentication.rs, used by the login
route, maps the same failure to AuthError::UnexpectedError, matching the
claim; this theorem evaluates both copies and the full publish handler at
the failing input. -/
theorem c1_publish_malformed_stored_hash_is_reported_as_auth_failure :
    phc_parse_ok "not-a-phc-hash" = false
    ∧ newsletters_validate_password_hash (fun _ _ => false) "not-a-phc-hash" "any-password"
        = Except.error PublishError.AuthError
    ∧ authentication_validate_password_hash (fun _ _ => false) "not-a-phc-hash" "any-password"
        = Except.error AuthError.UnexpectedError
    ∧ publish_newsletter
        { subscriptions := [], subscription_tokens := [],
          users := [{ user_id := 9, username := "admin", password := "not-a-phc-hash" }] }
        (fun _ _ => false) ⟨true, true, true⟩ (fun _ => true)
        (some ("admin", "any-password")) "T" "text" "html"
        = (401, []) :=
  ⟨rfl, rfl, rfl, rfl⟩

/-- C5: for every token absent from the token store, whatever its shape,
confirm answers 401 and leaves the store unchanged after exactly the one
lookup statement; moreover no call of confirm ever produces the 400
bad-request class, so malformed tokens are never distinguished from
unknown ones. -/
theorem c5_confirm_unknown_token_unauthorized_no_mutation (store : Store)
    (o : ConfirmOracle) (token : String)
    (habs : ∀ r ∈ store.subscription_tokens, r.subscription_token ≠ token)
    (hok : o.lookup_ok = true) :
    confirm store o token = ⟨401, store, 1⟩
    ∧ ∀ (t : String) (p : ConfirmOracle), (confirm store p t).status ≠ 400 := by
  constructor
  · simp [confirm, hok, get_subscriber_id_from_token_eq_none store token habs]
  · intro t p
    cases hp : p.lookup_ok with
    | false => simp [confirm, hp]
    | true =>
      cases hm : get_subscriber_id_from_token store t with
      | none => simp [confirm, hp, hm]
      | some sid =>
        cases hu : p.update_ok with
        | false => simp [confirm, hp, hm, hu]
        | true => simp [confirm, hp, hm, hu]

/-- C5 witness: a store holding one token row, queried with an absent
token. -/
theorem c5_witness :
    (∀ r ∈ (Store.mk [] [⟨"tok123", 1⟩] []).subscription_tokens,
        r.subscription_token ≠ "zzzzzzzzzzzzzzzzzzzzzzzzz")
    ∧ confirm (Store.mk [] [⟨"tok123", 1⟩] []) ⟨true, true⟩ "zzzzzzzzzzzzzzzzzzzzzzzzz"
        = ⟨401, Store.mk [] [⟨"tok123", 1⟩] [], 1⟩ :=
  ⟨by decide,
    (c5_confirm_unknown_token_unauthorized_no_mutation
      (Store.mk [] [⟨"tok123", 1⟩] []) ⟨true, true⟩ "zzzzzzzzzzzzzzzzzzzzzzzzz"
      (by decide) rfl).1⟩

/-- C6 counterexample: the claim states that every incoming token is
checked to be 25 alphabet characters and that a malformed token is
rejected before any storage access. At the malformed token "bad!" (length
4), confirm nevertheless executes one storage statement, the token
lookup, and rejects only through it. -/
theorem c6_counterexample :
    ("bad!".toList.length = 25 → False)
    ∧ (confirm (Store.mk [] [⟨"tok123", 1⟩] []) ⟨true, true⟩ "bad!").storage_accesses = 1
    ∧ (confirm (Store.mk [] [⟨"tok123", 1⟩] []) ⟨true, true⟩ "bad!").status = 401 :=
  ⟨by decide, rfl, rfl⟩

/-- C6 amended: confirm performs no token-shape validation at all; the
storage lookup is executed for every incoming token, so every call makes
at least one storage access, and two absent tokens — malformed or
well-formed alike — produce identical outcomes through that lookup. -/
theorem c6_confirm_has_no_shape_validation (store : Store) (o : ConfirmOracle)
    (t1 t2 : String)
    (h1 : ∀ r ∈ store.subscription_tokens, r.subscription_token ≠ t1)
    (h2 : ∀ r ∈ store.subscription_tokens, r.subscription_token ≠ t2) :
    1 ≤ (confirm store o t1).storage_accesses
    ∧ (o.lookup_ok = true → confirm store o t1 = confirm store o t2) := by
  constructor
  · cases hp : o.lookup_ok with
    | false => simp [confirm, hp]
    | true =>
      cases hm : get_subscriber_id_from_token store t1 with
      | none => simp [confirm, hp, hm]
      | some sid =>
        cases hu : o.update_ok with
        | false => simp [confirm, hp, hm, hu]
        | true => simp [confirm, hp, hm, hu]
  · intro hok
    rw [show confirm store o t1 = ⟨401, store, 1⟩ by
          simp [confirm, hok, get_subscriber_id_from_token_eq_none store t1 h1],
        show confirm store o t2 = ⟨401, store, 1⟩ by
          simp [confirm, hok, get_subscriber_id_from_token_eq_none store t2 h2]]

/-- C6 amended witness: the malformed token "bad!" and the well-formed
25-character token of the generation alphabet are treated identically on
a store containing one unrelated token row. -/
theorem c6_witness :
    (∀ r ∈ (Store.mk [] [⟨"tok123", 1⟩] []).subscription_tokens,
        r.subscription_token ≠ "bad!")
    ∧ 1 ≤ (confirm (Store.mk [] [⟨"tok123", 1⟩] []) ⟨true, true⟩ "bad!").storage_accesses
    ∧ confirm (Store.mk [] [⟨"tok123", 1⟩] []) ⟨true, true⟩ "bad!"
        = confirm (Store.mk [] [⟨"tok123", 1⟩] []) ⟨true, true⟩ "zzzzzzzzzzzzzzzzzzzzzzzzz" := by
  have h := c6_confirm_has_no_shape_validation (Store.mk [] [⟨"tok123", 1⟩] [])
    ⟨true, true⟩ "bad!" "zzzzzzzzzzzzzzzzzzzzzzzzz" (by decide) (by decide)
  exact ⟨by decide, h.1, h.2 rfl⟩

/-- C4: confirm is idempotent on subscriber status: with a valid token
bound to a subscriber whose rows are already confirmed, the unconditional
update leaves the store unchanged and every repetition of the call
reports 200. -/
theorem c4_confirm_idempotent_on_confirmed (store : Store) (o : ConfirmOracle)
    (token : String) (sid : Nat)
    (htok : get_subscriber_id_from_token store token = some sid)
    (hconf : ∀ r ∈ store.subscriptions, r.id = sid → r.status = SubscriberStatus.confirmed)
    (hl : o.lookup_ok = true) (hu : o.update_ok = true) :
    confirm store o token = ⟨200, store, 2⟩
    ∧ ∀ n, confirm_iter o token n store = (store, List.replicate n 200) := by
  have hone : confirm store o token = ⟨200, store, 2⟩ := by
    simp [confirm, hl, htok, hu, confirm_subscriber_of_already_confirmed store sid hconf]
  refine ⟨hone, ?_⟩
  intro n
  induction n with
  | zero => rfl
  | succ k ih => simp [confirm_iter, hone, ih, List.replicate_succ]

/-- C4 witness: a store with one already-confirmed subscriber and its
token; one call and two iterated calls both report 200 and leave the
store unchanged. -/
theorem c4_witness :
    get_subscriber_id_from_token
        (Store.mk [⟨1, "jon@example.com", "Jon", SubscriberStatus.confirmed⟩] [⟨"tok123", 1⟩] [])
        "tok123" = some 1
    ∧ confirm (Store.mk [⟨1, "jon@example.com", "Jon", SubscriberStatus.confirmed⟩]
          [⟨"tok123", 1⟩] []) ⟨true, true⟩ "tok123"
        = ⟨200, Store.mk [⟨1, "jon@example.com", "Jon", SubscriberStatus.confirmed⟩]
            [⟨"tok123", 1⟩] [], 2⟩
    ∧ confirm_iter ⟨true, true⟩ "tok123" 2
        (Store.mk [⟨1, "jon@example.com", "Jon", SubscriberStatus.confirmed⟩] [⟨"tok123", 1⟩] [])
        = (Store.mk [⟨1, "jon@example.com", "Jon", SubscriberStatus.confirmed⟩]
            [⟨"tok123", 1⟩] [], [200, 200]) := by
  have h := c4_confirm_idempotent_on_confirmed
    (Store.mk [⟨1, "jon@example.com", "Jon", SubscriberStatus.confirmed⟩] [⟨"tok123", 1⟩] [])
    ⟨true, true⟩ "tok123" 1 (by decide) (by decide) rfl rfl
  exact ⟨by decide, h.1, h.2 2⟩

/-- C10: when the token lookup yields a subscriber id that matches no
subscriber row, the unconditional update touches zero rows, yet confirm
still reports 200 with the store unchanged: success does not certify that
any row was set to confirmed. -/
theorem c10_confirm_success_without_matching_row (store : Store) (o : ConfirmOracle)
    (token : String) (sid : Nat)
    (htok : get_subscriber_id_from_token store token = some sid)
    (hno : ∀ r ∈ store.subscriptions, r.id ≠ sid)
    (hl : o.lookup_ok = true) (hu : o.update_ok = true) :
    confirm store o token = ⟨200, store, 2⟩ := by
  simp [confirm, hl, htok, hu, confirm_subscriber_of_id_absent store sid hno]

/-- C10 witness: a dangling token row bound to id 99 with no subscriber
row of that id; confirm still reports 200 and changes nothing. -/
theorem c10_witness :
    get_subscriber_id_from_token
        (Store.mk [⟨1, "jon@example.com", "Jon", SubscriberStatus.pending_confirmation⟩]
          [⟨"tok123", 99⟩] []) "tok123" = some 99
    ∧ (∀ r ∈ (Store.mk [⟨1, "jon@example.com", "Jon", SubscriberStatus.pending_confirmation⟩]
          [⟨"tok123", 99⟩] []).subscriptions, r.id ≠ 99)
    ∧ confirm (Store.mk [⟨1, "jon@example.com", "Jon", SubscriberStatus.pending_confirmation⟩]
          [⟨"tok123", 99⟩] []) ⟨true, true⟩ "tok123"
        = ⟨200, Store.mk [⟨1, "jon@example.com", "Jon", SubscriberStatus.pending_confirmation⟩]
            [⟨"tok123", 99⟩] [], 2⟩ :=
  ⟨by decide, by decide,
    c10_confirm_success_without_matching_row
      (Store.mk [⟨1, "jon@example.com", "Jon", SubscriberStatus.pending_confirmation⟩]
        [⟨"tok123", 99⟩] []) ⟨true, true⟩ "tok123" 99 (by decide) (by decide) rfl rfl⟩

theorem alphanumericChars_getD_mem (n : Nat) :
    alphanumericChars.getD n 'A' ∈ alphanumericChars := by
  by_cases h : n < alphanumericChars.length
  · rw [List.getD_eq_getElem alphanumericChars 'A' h]
    exact List.getElem_mem h
  · rw [List.getD_eq_default alphanumericChars 'A' (Nat.le_of_not_lt h)]
    decide

theorem generate_subscription_token_length (rng : Nat → Fin 62) :
    (generate_subscription_token rng).length = 25 := by
  simp [generate_subscription_token, String.length]

theorem generate_subscription_token_chars (rng : Nat → Fin 62) :
    ∀ c ∈ (generate_subscription_token rng).toList, c ∈ alphanumericChars := by
  intro c hc
  simp only [generate_subscription_token, String.toList, List.mem_map] at hc
  obtain ⟨i, _, rfl⟩ := hc
  exact alphanumericChars_getD_mem _

/-- C2: for a valid (name, email) pair whose email is not yet stored,
submit with every storage step and the send succeeding answers 200 after
appending exactly one subscriber row in pending confirmation and exactly
one token row bound to the fresh subscriber id, the token being the
generated 25-character alphanumeric string, and hands exactly one
confirmation email to the gateway; and whenever any of the transactional
steps fails instead, neither row appears (the store is unchanged) and the
outcome is 500. -/
theorem c2_submit_new_email_one_subscriber_one_token_one_email
    (store : Store) (o : SubscribeOracle) (name email base_url : String)
    (hname : valid_name name = true) (hemail : valid_email email = true)
    (hnew : get_subscriber_id_from_email store email = none) :
    ((o.lookup_id_ok = true ∧ o.begin_ok = true ∧ o.insert_subscriber_ok = true
        ∧ o.store_token_ok = true ∧ o.commit_ok = true ∧ o.send_email_ok = true) →
      subscribe store o name email base_url =
        ⟨200,
          { subscriptions := store.subscriptions ++
              [⟨o.fresh_id, email, name, SubscriberStatus.pending_confirmation⟩],
            subscription_tokens := store.subscription_tokens ++
              [⟨generate_subscription_token o.rng, o.fresh_id⟩],
            users := store.users },
          [confirmation_email email base_url (generate_subscription_token o.rng)]⟩
      ∧ (generate_subscription_token o.rng).length = 25
      ∧ (∀ c ∈ (generate_subscription_token o.rng).toList, c ∈ alphanumericChars))
    ∧ (¬(o.lookup_id_ok = true ∧ o.begin_ok = true ∧ o.insert_subscriber_ok = true
          ∧ o.store_token_ok = true ∧ o.commit_ok = true) →
        (subscribe store o name email base_url).store = store
        ∧ (subscribe store o name email base_url).status = 500
        ∧ (subscribe store o name email base_url).emails_sent = []) := by
  constructor
  · rintro ⟨h1, h2, h3, h4, h5, h6⟩
    refine ⟨?_, generate_subscription_token_length o.rng,
      generate_subscription_token_chars o.rng⟩
    simp [subscribe, hname, hemail, hnew, h1, h2, h3, h4, h5, h6,
      insert_subscriber, store_token]
  · intro hfail
    cases o with
    | mk l lt bg ins st cm se fid rng =>
      simp only at hfail
      cases l <;> cases bg <;> cases ins <;> cases st <;> cases cm <;>
        simp_all [subscribe, hname, hemail, hnew]

/-- C2 witness: submitting Jon at jon@example.com on an empty store with
every step succeeding yields the two rows and one email; the generated
token for the constant random stream is the 25 letter A string. -/
theorem c2_witness :
    valid_name "Jon" = true ∧ valid_email "jon@example.com" = true
    ∧ get_subscriber_id_from_email (Store.mk [] [] []) "jon@example.com" = none
    ∧ subscribe (Store.mk [] [] [])
        ⟨true, true, true, true, true, true, true, 7, fun _ => 0⟩
        "Jon" "jon@example.com" "https://base"
        = ⟨200,
            Store.mk [⟨7, "jon@example.com", "Jon", SubscriberStatus.pending_confirmation⟩]
              [⟨"AAAAAAAAAAAAAAAAAAAAAAAAA", 7⟩] [],
            [confirmation_email "jon@example.com" "https://base" "AAAAAAAAAAAAAAAAAAAAAAAAA"]⟩ := by
  have h := c2_submit_new_email_one_subscriber_one_token_one_email
    (Store.mk [] [] []) ⟨true, true, true, true, true, true, true, 7, fun _ => 0⟩
    "Jon" "jon@example.com" "https://base" (by decide) (by decide) (by decide)
  refine ⟨by decide, by decide, by decide, ?_⟩
  rw [(h.1 ⟨rfl, rfl, rfl, rfl, rfl, rfl⟩).1]
  rfl

/-- C3: for an email already bound to a stored subscriber, submit writes
nothing: when a token row exists the stored token is mailed again and the
call answers 200 with the store unchanged, and n iterated submissions
leave the store unchanged while producing n emails that all carry the
identical confirmation link; when no token row exists the call answers
500 with the store unchanged and no email. -/
theorem c3_submit_existing_email_resends_same_token
    (store : Store) (o : SubscribeOracle) (name email base_url : String) (sid : Nat)
    (hname : valid_name name = true) (hemail : valid_email email = true)
    (hsid : get_subscriber_id_from_email store email = some sid)
    (hl : o.lookup_id_ok = true) (hlt : o.lookup_token_ok = true)
    (hse : o.send_email_ok = true) :
    (∀ token, get_subscription_token_from_id store sid = some token →
      subscribe store o name email base_url
          = ⟨200, store, [confirmation_email email base_url token]⟩
      ∧ ∀ n, subscribe_iter o name email base_url n store
          = (store, List.replicate n (confirmation_email email base_url token)))
    ∧ (get_subscription_token_from_id store sid = none →
        subscribe store o name email base_url = ⟨500, store, []⟩) := by
  constructor
  · intro token htok
    have hone : subscribe store o name email base_url
        = ⟨200, store, [confirmation_email email base_url token]⟩ := by
      simp [subscribe, hname, hemail, hsid, htok, hl, hlt, hse]
    refine ⟨hone, ?_⟩
    intro n
    induction n with
    | zero => rfl
    | succ k ih => simp [subscribe_iter, hone, ih, List.replicate_succ]
  · intro htok
    simp [subscribe, hname, hemail, hsid, htok, hl, hlt]

/-- C3 witness: a store holding the pending subscriber and the token row
tok123; one submission resends tok123 and two iterated submissions leave
one row and produce two identical emails. -/
theorem c3_witness :
    get_subscriber_id_from_email
        (Store.mk [⟨1, "jon@example.com", "Jon", SubscriberStatus.pending_confirmation⟩]
          [⟨"tok123", 1⟩] []) "jon@example.com" = some 1
    ∧ subscribe
        (Store.mk [⟨1, "jon@example.com", "Jon", SubscriberStatus.pending_confirmation⟩]
          [⟨"tok123", 1⟩] [])
        ⟨true, true, true, true, true, true, true, 7, fun _ => 0⟩
        "Jon" "jon@example.com" "https://base"
        = ⟨200,
            Store.mk [⟨1, "jon@example.com", "Jon", SubscriberStatus.pending_confirmation⟩]
              [⟨"tok123", 1⟩] [],
            [confirmation_email "jon@example.com" "https://base" "tok123"]⟩
    ∧ subscribe_iter ⟨true, true, true, true, true, true, true, 7, fun _ => 0⟩
        "Jon" "jon@example.com" "https://base" 2
        (Store.mk [⟨1, "jon@example.com", "Jon", SubscriberStatus.pending_confirmation⟩]
          [⟨"tok123", 1⟩] [])
        = (Store.mk [⟨1, "jon@example.com", "Jon", SubscriberStatus.pending_confirmation⟩]
            [⟨"tok123", 1⟩] [],
           [confirmation_email "jon@example.com" "https://base" "tok123",
            confirmation_email "jon@example.com" "https://base" "tok123"]) := by
  have h := c3_submit_existing_email_resends_same_token
    (Store.mk [⟨1, "jon@example.com", "Jon", SubscriberStatus.pending_confirmation⟩]
      [⟨"tok123", 1⟩] [])
    ⟨true, true, true, true, true, true, true, 7, fun _ => 0⟩
    "Jon" "jon@example.com" "https://base" 1 (by decide) (by decide) (by decide) rfl rfl rfl
  have h2 := h.1 "tok123" (by decide)
  exact ⟨by decide, h2.1, h2.2 2⟩

/-- C9: on the new-subscriber path, when every storage step succeeds and
the confirmation send then fails, submit answers 500 with no email, yet
the committed subscriber row in pending confirmation and its token row
remain in the store: there is no compensating rollback. -/
theorem c9_send_failure_after_commit_keeps_rows
    (store : Store) (o : SubscribeOracle) (name email base_url : String)
    (hname : valid_name name = true) (hemail : valid_email email = true)
    (hnew : get_subscriber_id_from_email store email = none)
    (h1 : o.lookup_id_ok = true) (h2 : o.begin_ok = true)
    (h3 : o.insert_subscriber_ok = true) (h4 : o.store_token_ok = true)
    (h5 : o.commit_ok = true) (hse : o.send_email_ok = false) :
    subscribe store o name email base_url =
      ⟨500,
        { subscriptions := store.subscriptions ++
            [⟨o.fresh_id, email, name, SubscriberStatus.pending_confirmation⟩],
          subscription_tokens := store.subscription_tokens ++
            [⟨generate_subscription_token o.rng, o.fresh_id⟩],
          users := store.users },
        []⟩ := by
  simp [subscribe, hname, hemail, hnew, h1, h2, h3, h4, h5, hse,
    insert_subscriber, store_token]

/-- C9 witness: on an empty store with the send failing, submit answers
500 and the two committed rows persist. -/
theorem c9_witness :
    valid_name "Jon" = true ∧ valid_email "jon@example.com" = true
    ∧ get_subscriber_id_from_email (Store.mk [] [] []) "jon@example.com" = none
    ∧ subscribe (Store.mk [] [] [])
        ⟨true, true, true, true, true, true, false, 7, fun _ => 0⟩
        "Jon" "jon@example.com" "https://base"
        = ⟨500,
            Store.mk [⟨7, "jon@example.com", "Jon", SubscriberStatus.pending_confirmation⟩]
              [⟨"AAAAAAAAAAAAAAAAAAAAAAAAA", 7⟩] [],
            []⟩ := by
  have h := c9_send_failure_after_commit_keeps_rows (Store.mk [] [] [])
    ⟨true, true, true, true, true, true, false, 7, fun _ => 0⟩
    "Jon" "jon@example.com" "https://base" (by decide) (by decide) (by decide)
    rfl rfl rfl rfl rfl rfl
  refine ⟨by decide, by decide, by decide, ?_⟩
  rw [h]
  rfl

theorem get_confirmed_subscribers_eq (store : Store) :
    get_confirmed_subscribers store
      = ((store.subscriptions.filter
            (fun r => r.status == SubscriberStatus.confirmed)).map (fun r => r.email)).map
          (fun e => if valid_email e then Except.ok e else Except.error e) := by
  simp [get_confirmed_subscribers, List.map_map]

theorem newsletter_send_loop_all_ok (send_ok : String → Bool) (title text html : String)
    (L : List String) (hall : ∀ e ∈ L.filter valid_email, send_ok e = true) :
    newsletter_send_loop send_ok title text html
        (L.map (fun e => if valid_email e then Except.ok e else Except.error e))
      = (true, (L.filter valid_email).map (fun e => newsletter_email e title text html)) := by
  induction L with
  | nil => rfl
  | cons a L ih =>
    cases hv : valid_email a with
    | false =>
      have hresta : ∀ e ∈ L.filter valid_email, send_ok e = true := by
        intro e he
        exact hall e (by simp [List.filter_cons, hv, he])
      simp [newsletter_send_loop, hv, List.filter_cons, ih hresta]
    | true =>
      have hsa : send_ok a = true := hall a (by simp [List.filter_cons, hv])
      have hresta : ∀ e ∈ L.filter valid_email, send_ok e = true := by
        intro e he
        exact hall e (by simp [List.filter_cons, hv, he])
      simp [newsletter_send_loop, hv, hsa, List.filter_cons, ih hresta]

theorem newsletter_send_loop_first_fail (send_ok : String → Bool)
    (title text html : String) (L : List String) :
    ∀ (A B : List String) (f : String),
    L.filter valid_email = A ++ f :: B → (∀ a ∈ A, send_ok a = true) →
    send_ok f = false →
    newsletter_send_loop send_ok title text html
        (L.map (fun e => if valid_email e then Except.ok e else Except.error e))
      = (false, A.map (fun e => newsletter_email e title text html)) := by
  induction L with
  | nil =>
    intro A B f hsplit _ _
    exact absurd hsplit (by cases A <;> simp)
  | cons a L ih =>
    intro A B f hsplit hA hf
    cases hv : valid_email a with
    | false =>
      rw [List.filter_cons_of_neg (by simp [hv])] at hsplit
      simp [newsletter_send_loop, hv, ih A B f hsplit hA hf]
    | true =>
      rw [List.filter_cons_of_pos (by simp [hv])] at hsplit
      cases A with
      | nil =>
        obtain ⟨rfl, -⟩ : a = f ∧ L.filter valid_email = B := by
          simpa using hsplit
        simp [newsletter_send_loop, hv, hf]
      | cons a0 A0 =>
        obtain ⟨rfl, hrest⟩ : a = a0 ∧ L.filter valid_email = A0 ++ f :: B := by
          simpa using hsplit
        have hsa : send_ok a = true := hA a (by simp)
        have hA0 : ∀ x ∈ A0, send_ok x = true := fun x hx => hA x (by simp [hx])
        simp [newsletter_send_loop, hv, hsa, ih A0 B f hrest hA0 hf]

/-- C7: with valid credentials and every attempted send succeeding,
publish answers 200 and hands the gateway one email, carrying the given
title, text and html, for exactly the subscribers whose stored status is
confirmed and whose stored email re-parses as valid, in store order;
confirmed subscribers with malformed stored emails are skipped without
aborting, pending subscribers receive nothing, and an empty confirmed
list yields 200 with no email. -/
theorem c7_publish_emails_exactly_confirmed_valid_subscribers
    (store : Store) (verify : String → String → Bool) (o : PublishOracle)
    (send_ok : String → Bool) (u p expected title text html : String) (uid : Nat)
    (hcred : get_stored_credentials store u = some (uid, expected))
    (hphc : phc_parse_ok expected = true) (hv : verify p expected = true)
    (ho1 : o.cred_lookup_ok = true) (ho2 : o.spawn_ok = true)
    (ho3 : o.get_confirmed_ok = true)
    (hsend : ∀ e ∈ confirmed_valid_emails store, send_ok e = true) :
    publish_newsletter store verify o send_ok (some (u, p)) title text html
      = (200, (confirmed_valid_emails store).map
          (fun e => newsletter_email e title text html)) := by
  have hloop : newsletter_send_loop send_ok title text html (get_confirmed_subscribers store)
      = (true, (confirmed_valid_emails store).map
          (fun e => newsletter_email e title text html)) := by
    rw [get_confirmed_subscribers_eq]
    exact newsletter_send_loop_all_ok send_ok title text html _ hsend
  simp [publish_newsletter, newsletters_validate_credentials, hcred, ho1, ho2, ho3,
    newsletters_validate_password_hash, hphc, hv, hloop]

/-- C7 witness: subscriber A confirmed and valid, B pending, C confirmed
with a malformed stored email, D confirmed and valid; publish emails
exactly A and D and answers 200; on a store with no subscribers, publish
answers 200 with no email. -/
theorem c7_witness :
    get_stored_credentials
        (Store.mk
          [⟨1, "a@x.com", "A", SubscriberStatus.confirmed⟩,
           ⟨2, "b@x.com", "B", SubscriberStatus.pending_confirmation⟩,
           ⟨3, "broken", "C", SubscriberStatus.confirmed⟩,
           ⟨4, "d@x.com", "D", SubscriberStatus.confirmed⟩]
          [] [⟨9, "admin", "$argon2id$v=19$hash"⟩]) "admin"
      = some (9, "$argon2id$v=19$hash")
    ∧ publish_newsletter
        (Store.mk
          [⟨1, "a@x.com", "A", SubscriberStatus.confirmed⟩,
           ⟨2, "b@x.com", "B", SubscriberStatus.pending_confirmation⟩,
           ⟨3, "broken", "C", SubscriberStatus.confirmed⟩,
           ⟨4, "d@x.com", "D", SubscriberStatus.confirmed⟩]
          [] [⟨9, "admin", "$argon2id$v=19$hash"⟩])
        (fun _ _ => true) ⟨true, true, true⟩ (fun _ => true)
        (some ("admin", "pw")) "T" "text" "html"
      = (200, [newsletter_email "a@x.com" "T" "text" "html",
               newsletter_email "d@x.com" "T" "text" "html"])
    ∧ publish_newsletter (Store.mk [] [] [⟨9, "admin", "$argon2id$v=19$hash"⟩])
        (fun _ _ => true) ⟨true, true, true⟩ (fun _ => true)
        (some ("admin", "pw")) "T" "text" "html"
      = (200, []) := by
  refine ⟨by decide, ?_, ?_⟩
  · rw [c7_publish_emails_exactly_confirmed_valid_subscribers _ (fun _ _ => true)
      ⟨true, true, true⟩ (fun _ => true) "admin" "pw" "$argon2id$v=19$hash" "T" "text" "html" 9
      (by decide) (by decide) rfl rfl rfl rfl (by decide)]
    rfl
  · rw [c7_publish_emails_exactly_confirmed_valid_subscribers _ (fun _ _ => true)
      ⟨true, true, true⟩ (fun _ => true) "admin" "pw" "$argon2id$v=19$hash" "T" "text" "html" 9
      (by decide) (by decide) rfl rfl rfl rfl (by decide)]
    rfl

/-- C8: with valid credentials, when the sends for the recipients before f
succeed and the send for f fails, publish aborts at f: it answers 500 and
the gateway has received exactly the emails of the recipients before f,
none of the later ones; and when the confirmed recipient list has no
duplicates, no recipient received more than one email in the call. -/
theorem c8_publish_first_send_failure_aborts_batch
    (store : Store) (verify : String → String → Bool) (o : PublishOracle)
    (send_ok : String → Bool) (u p expected title text html : String) (uid : Nat)
    (A B : List String) (f : String)
    (hcred : get_stored_credentials store u = some (uid, expected))
    (hphc : phc_parse_ok expected = true) (hv : verify p expected = true)
    (ho1 : o.cred_lookup_ok = true) (ho2 : o.spawn_ok = true)
    (ho3 : o.get_confirmed_ok = true)
    (hsplit : confirmed_valid_emails store = A ++ f :: B)
    (hA : ∀ a ∈ A, send_ok a = true) (hf : send_ok f = false) :
    publish_newsletter store verify o send_ok (some (u, p)) title text html
      = (500, A.map (fun e => newsletter_email e title text html))
    ∧ ((confirmed_valid_emails store).Nodup →
        (((A.map (fun e => newsletter_email e title text html)).map
          Email.recipient).Nodup)) := by
  constructor
  · have hloop : newsletter_send_loop send_ok title text html
        (get_confirmed_subscribers store)
        = (false, A.map (fun e => newsletter_email e title text html)) := by
      rw [get_confirmed_subscribers_eq]
      exact newsletter_send_loop_first_fail send_ok title text html _ A B f hsplit hA hf
    simp [publish_newsletter, newsletters_validate_credentials, hcred, ho1, ho2, ho3,
      newsletters_validate_password_hash, hphc, hv, hloop]
  · intro hno
    rw [hsplit] at hno
    have hAno : A.Nodup := (List.nodup_append.mp hno).1
    simpa [List.map_map, Function.comp_def, newsletter_email] using hAno

/-- C8 witness: recipients a@x.com then d@x.com; the send for a@x.com
succeeds and the send for d@x.com fails, so publish answers 500 having
emailed exactly a@x.com, each recipient at most once. -/
theorem c8_witness :
    confirmed_valid_emails
        (Store.mk
          [⟨1, "a@x.com", "A", SubscriberStatus.confirmed⟩,
           ⟨2, "b@x.com", "B", SubscriberStatus.pending_confirmation⟩,
           ⟨3, "broken", "C", SubscriberStatus.confirmed⟩,
           ⟨4, "d@x.com", "D", SubscriberStatus.confirmed⟩]
          [] [⟨9, "admin", "$argon2id$v=19$hash"⟩])
      = ["a@x.com"] ++ "d@x.com" :: []
    ∧ publish_newsletter
        (Store.mk
          [⟨1, "a@x.com", "A", SubscriberStatus.confirmed⟩,
           ⟨2, "b@x.com", "B", SubscriberStatus.pending_confirmation⟩,
           ⟨3, "broken", "C", SubscriberStatus.confirmed⟩,
           ⟨4, "d@x.com", "D", SubscriberStatus.confirmed⟩]
          [] [⟨9, "admin", "$argon2id$v=19$hash"⟩])
        (fun _ _ => true) ⟨true, true, true⟩ (fun e => e != "d@x.com")
        (some ("admin", "pw")) "T" "text" "html"
      = (500, [newsletter_email "a@x.com" "T" "text" "html"])
    ∧ ([newsletter_email "a@x.com" "T" "text" "html"].map Email.recipient).Nodup := by
  have h := c8_publish_first_send_failure_aborts_batch
    (Store.mk
      [⟨1, "a@x.com", "A", SubscriberStatus.confirmed⟩,
       ⟨2, "b@x.com", "B", SubscriberStatus.pending_confirmation⟩,
       ⟨3, "broken", "C", SubscriberStatus.confirmed⟩,
       ⟨4, "d@x.com", "D", SubscriberStatus.confirmed⟩]
      [] [⟨9, "admin", "$argon2id$v=19$hash"⟩])
    (fun _ _ => true) ⟨true, true, true⟩ (fun e => e != "d@x.com")
    "admin" "pw" "$argon2id$v=19$hash" "T" "text" "html" 9
    ["a@x.com"] [] "d@x.com"
    (by decide) (by decide) rfl rfl rfl rfl (by decide) (by decide) (by decide)
  refine ⟨by decide, ?_, ?_⟩
  · rw [h.1]
    rfl
  · exact h.2 (by decide)

end Zero2Prod
